import Mathlib

/-!
Verification development for the AI meeting-summarizer frontend
(`frontend/src/app/dashboard/page.tsx`, `frontend/src/app/admin/page.tsx`,
the buy-credits page, and `frontend/src/components/ResultDisplay.tsx`).

The TypeScript React code is shallowly embedded: each event handler becomes a
pure Lean function from an explicit state record (the component's `useState`
hooks) and the relevant network-response data to a new state together with the
observable effects it produces (network calls, alerts, whether a media element
was created for the duration probe).  JavaScript numbers that hold credit
balances and durations are modelled as rationals; JavaScript's `||` on strings
(where the empty string is falsy) is modelled explicitly.
-/

/-! ## Data model (dashboard/page.tsx lines 7-48) -/

/-- `interface Summary` (dashboard/page.tsx lines 8-12). -/
structure Summary where
  ringkasan_singkat : String
  poin_penting : List String
  action_items : List String
deriving DecidableEq

/-- `interface ProcessingResult` (dashboard/page.tsx lines 14-21). -/
structure ProcessingResult where
  status : String
  original_filename : String
  duration_minutes : ℚ
  transcript : String
  summary : Summary
  cache_key : Option String
deriving DecidableEq

/-- `interface PartialResult` (dashboard/page.tsx lines 23-32). -/
structure PartialResult where
  status : String
  stage : String
  original_filename : String
  duration_minutes : ℚ
  transcript : String
  cache_key : String
  error : String
  message : String
deriving DecidableEq

/-- The three values of `FileItem.status` (dashboard/page.tsx line 37). -/
inductive FileStatus where
  | processing
  | completed
  | error
deriving DecidableEq

/-- `interface FileItem` (dashboard/page.tsx lines 34-42): one client-side
processing session.  The `id` (a UUID in the source) is modelled as a
counter-generated natural number. -/
structure FileItem where
  id : Nat
  name : String
  status : FileStatus
  progress : Option Nat
  result : Option ProcessingResult
  partialResult : Option PartialResult
  error : Option String
deriving DecidableEq

/-- A browser `File` object as the dashboard consumes it: `name`, `size`,
MIME `type`, and the media duration in seconds that a metadata probe would
report for it. -/
structure DomFile where
  name : String
  size : Nat
  type : String
  duration : ℚ
deriving DecidableEq

/-- The credit-balance record kept in `userCredits` state
(dashboard/page.tsx line 58). -/
structure UserCredits where
  total : ℚ
  free : ℚ
  paid : ℚ
  maxDuration : ℚ
deriving DecidableEq

/-- `const ALLOWED_EXTENSIONS` (dashboard/page.tsx lines 44-47). -/
def ALLOWED_EXTENSIONS : List String :=
  [".mp3", ".wav", ".m4a", ".ogg",
   ".mp4", ".mov", ".mkv", ".avi", ".webm"]

/-- `const MAX_FILE_SIZE = 50 * 1024 * 1024` (dashboard/page.tsx line 48). -/
def MAX_FILE_SIZE : Nat := 50 * 1024 * 1024

/-- JavaScript `a || b` for strings: the empty string is falsy. -/
def jsOr (a b : String) : String := if a = "" then b else a

/-- Helper for `jsSplitDot`, walking the characters with an accumulator. -/
def jsSplitDotAux : List Char → List Char → List String
  | [], acc => [String.mk acc.reverse]
  | c :: cs, acc =>
    if c = '.' then String.mk acc.reverse :: jsSplitDotAux cs []
    else jsSplitDotAux cs (c :: acc)

/-- JavaScript `str.split(".")` (the only separator the source uses),
implemented structurally over the string's characters: splitting never
yields an empty list, and a string without a dot yields the one-element
list holding the string itself, exactly as in JavaScript. -/
def jsSplitDot (s : String) : List String := jsSplitDotAux s.data []

/-- JavaScript `str.toLowerCase()` over the string's characters (the
source applies it to ASCII file extensions). -/
def jsToLower (s : String) : String := String.mk (s.data.map Char.toLower)

/-- JavaScript `str.startsWith(pre)`. -/
def jsStartsWith (s pre : String) : Bool := pre.data.isPrefixOf s.data

/-! ## Result rendering (dashboard/page.tsx lines 671-713 and
ResultDisplay.tsx lines 184-262)

A rendered section body is modelled as the list of nodes it emits: one
`item` per mapped list entry, or an explanatory `message` paragraph. -/

/-- A node rendered inside a result-section body. -/
inductive RenderedNode where
  | item (text : String)
  | message (text : String)
deriving DecidableEq

/-- Key Points section body on the dashboard (dashboard/page.tsx lines
679-688): `poin_penting.map(...)` with no empty-list fallback. -/
def dashboardKeyPointsSection (s : Summary) : List RenderedNode :=
  s.poin_penting.map RenderedNode.item

/-- Action Items section body on the dashboard (dashboard/page.tsx lines
699-712): mapped items when non-empty, otherwise an explicit message. -/
def dashboardActionItemsSection (s : Summary) : List RenderedNode :=
  if s.action_items.length > 0 then
    s.action_items.map RenderedNode.item
  else
    [RenderedNode.message "Tidak ada action items terdeteksi."]

/-- Poin Penting section body in `ResultDisplay` (ResultDisplay.tsx lines
204-218): `poin_penting.map(...)` with no empty-list fallback. -/
def resultDisplayPoinPentingSection (s : Summary) : List RenderedNode :=
  s.poin_penting.map RenderedNode.item

/-- Action Items section body in `ResultDisplay` (ResultDisplay.tsx lines
240-261): mapped items when non-empty, otherwise an explicit message. -/
def resultDisplayActionItemsSection (s : Summary) : List RenderedNode :=
  if s.action_items.length > 0 then
    s.action_items.map RenderedNode.item
  else
    [RenderedNode.message "Tidak ada action items yang terdeteksi"]

/-! ## Buy-credits page (unnamed source part_000) -/

/-- `interface PackageData` (part_000 lines 8-14). -/
structure PackageData where
  id : String
  name : String
  credits : Nat
  price : Nat
  price_formatted : String
deriving DecidableEq

/-- The `useState` hooks of `BuyCreditsPage` that the proof-upload form
touches (part_000 lines 23-30). -/
structure BuyCreditsState where
  selectedPackage : Option PackageData
  proofFile : Option DomFile
  submitting : Bool
  error : Option String
deriving DecidableEq

/-- The MIME allow-list of `handleFileChange` (part_000 line 73). -/
def allowedProofTypes : List String := ["image/jpeg", "image/png", "image/webp"]

/-- `handleFileChange` (part_000 lines 69-86): validates the chosen file's
MIME type and size; on failure it sets an error and returns without touching
`proofFile`; on success it stores the file and clears the error. -/
def handleFileChange (s : BuyCreditsState) (file : Option DomFile) : BuyCreditsState :=
  match file with
  | none => s
  | some f =>
    if !(allowedProofTypes.contains f.type) then
      { s with error := some "Hanya file gambar (JPEG, PNG, WebP) yang diizinkan" }
    else if f.size > 5 * 1024 * 1024 then
      { s with error := some "Ukuran file maksimal 5MB" }
    else
      { s with proofFile := some f, error := none }

/-- The submit button's enabled state: `disabled={!proofFile || submitting}`
(part_000 line 269). -/
def submitEnabled (s : BuyCreditsState) : Bool :=
  s.proofFile.isSome && !s.submitting

/-- The multipart body `(user_id, package_id, proof)` that `handleSubmit`
(part_000 lines 88-122) posts to `/api/credits/purchase`, or `none` when its
guard `!selectedPackage || !proofFile || !user` rejects the submission. -/
def handleSubmit (s : BuyCreditsState) (user : Option String) :
    Option (String × String × DomFile) :=
  match s.selectedPackage, s.proofFile, user with
  | some pkg, some proof, some uid => some (uid, pkg.id, proof)
  | _, _, _ => none

/-! ## Admin console (admin/page.tsx) -/

/-- `interface Purchase` (admin/page.tsx lines 7-21). -/
structure Purchase where
  id : String
  user_id : String
  package_id : String
  credits : Nat
  amount : Nat
  status : String
  proof_url : String
  proof_filename : String
  admin_notes : Option String
  created_at : String
  verified_at : Option String
  user_email : Option String
  user_name : Option String
deriving DecidableEq

/-- The `useState` hooks of `AdminPage` (admin/page.tsx lines 26-35) plus the
`localStorage` slot `admin_key` the page persists its key in. -/
structure AdminState where
  purchases : List Purchase
  history : List Purchase
  loading : Bool
  adminKey : String
  authenticated : Bool
  selectedPurchase : Option Purchase
  actionLoading : Option String
  error : Option String
  storedKey : Option String
deriving DecidableEq

/-- The admin page renders the login screen exactly when `!authenticated`
(admin/page.tsx line 161). -/
def showsLogin (s : AdminState) : Bool := !s.authenticated

/-- `fetchData` (admin/page.tsx lines 62-87), resolved path: takes the HTTP
status and parsed `purchases` array of the pending-list response and of the
history-list response.  Only `pendingRes.status === 401` is inspected; the
history response's status is never checked.  (The network-error `catch`
branch, which only sets `error`, is not needed by any claim.) -/
def fetchData (s : AdminState) (pendingStatus : Nat) (pendingPurchases : List Purchase)
    (historyStatus : Nat) (historyPurchases : List Purchase) : AdminState :=
  if pendingStatus = 401 then
    { s with error := some "Admin key tidak valid", authenticated := false,
             storedKey := none, loading := false }
  else
    { s with purchases := pendingPurchases, history := historyPurchases,
             loading := false }

/-- The two admin verdict endpoints of `handleAction` (admin/page.tsx
line 107). -/
inductive AdminVerdict where
  | approve
  | reject
deriving DecidableEq

/-- `handleAction` (admin/page.tsx lines 107-129): posts
`/api/credits/admin/{approve|reject}/{purchaseId}` and, on `res.ok`, moves the
purchase from the pending list to history; on any non-ok response (including
401) it only sets `error` to "Aksi gagal".  `now` stands for
`new Date().toISOString()`. -/
def handleAction (s : AdminState) (purchaseId : String) (action : AdminVerdict)
    (resOk : Bool) (now : String) : AdminState :=
  let s0 := { s with actionLoading := some purchaseId }
  if resOk then
    let s1 :=
      match s0.purchases.find? (fun p => p.id == purchaseId) with
      | some processed =>
        { s0 with history :=
            { processed with
              status := (match action with
                         | AdminVerdict.approve => "approved"
                         | AdminVerdict.reject => "rejected"),
              verified_at := some now } :: s0.history }
      | none => s0
    { s1 with purchases := s1.purchases.filter (fun p => !(p.id == purchaseId)),
              selectedPurchase := none, actionLoading := none }
  else
    { s0 with error := some "Aksi gagal", actionLoading := none }

/-! ## Dashboard upload/processing orchestrator (dashboard/page.tsx)

Each event handler is embedded as a pure function producing the successor
state together with its observable effects.  A handler that contains an
`await` between its guards and its state updates is modelled as running
atomically, with the awaited network response supplied as an argument. -/

/-- A network request issued by the dashboard. -/
inductive NetworkCall where
  /-- `POST /api/process` with the file as multipart body and optional
  `user_id` query parameter (dashboard/page.tsx lines 176-186). -/
  | processRequest (user_id : Option String) (file : DomFile)
  /-- `POST /api/retry-summary` with JSON body `{cache_key}`
  (dashboard/page.tsx lines 319-326). -/
  | retryRequest (cache_key : String)
  /-- `GET /api/credits/balance?user_id=...` (dashboard/page.tsx line 73). -/
  | balanceRefresh (user_id : String)
deriving DecidableEq

/-- Whether a call is the balance refresh `GET /api/credits/balance`. -/
def NetworkCall.isBalanceRefresh : NetworkCall → Bool
  | NetworkCall.balanceRefresh _ => true
  | _ => false

/-- The `useState` hooks of `DashboardPage` the orchestrator touches
(dashboard/page.tsx lines 53-58), plus the counter generating fresh session
ids (standing in for `crypto.randomUUID()`). -/
structure DashboardState where
  files : List FileItem
  selectedFileId : Option Nat
  isRetrying : Bool
  userCredits : Option UserCredits
  nextId : Nat
deriving DecidableEq

/-- The result of running one handler: new state, network calls issued,
alerts shown, and whether a hidden media element was created for the
duration probe. -/
structure StepResult where
  state : DashboardState
  calls : List NetworkCall
  alerts : List String
  mediaProbed : Bool
deriving DecidableEq

/-- `const isProcessing = files.some(f => f.status === "processing")`
(dashboard/page.tsx line 68). -/
def isProcessing (s : DashboardState) : Bool :=
  s.files.any (fun f => f.status == FileStatus.processing)

/-- `fetchUserCredits` (dashboard/page.tsx lines 71-85) issues the balance
request only `if (user)`. -/
def balanceCalls (uid : Option String) : List NetworkCall :=
  match uid with
  | some u => [NetworkCall.balanceRefresh u]
  | none => []

/-- `validateFile` (dashboard/page.tsx lines 98-107). -/
def validateFile (file : DomFile) : Option String :=
  let ext := "." ++ jsToLower ((jsSplitDot file.name).getLastD "")
  if !(ALLOWED_EXTENSIONS.contains ext) then
    some "Format file tidak didukung"
  else if file.size > MAX_FILE_SIZE then
    some "File terlalu besar (max 50MB)"
  else
    none

/-- `getMaxDuration` (dashboard/page.tsx lines 109-111):
`userCredits?.maxDuration || 20`, where a zero stored maximum is falsy. -/
def getMaxDuration (credits : Option UserCredits) : ℚ :=
  match credits with
  | some c => if c.maxDuration = 0 then 20 else c.maxDuration
  | none => 20

/-- The duration-exceeded alert text (dashboard/page.tsx line 142).  The
source interpolates `durationMins.toFixed(1)` and the maximum into the text;
that numeric formatting is elided here — no claim inspects this string. -/
def durationExceededMsg : String :=
  "Durasi file melebihi batas paket. Silakan tambah credit."

/-- Outcome of `validateDuration`: whether a hidden media element was
created, and the validation error, if any. -/
structure DurationProbe where
  ran : Bool
  result : Option String
deriving DecidableEq

/-- `validateDuration` (dashboard/page.tsx lines 113-155).  Files whose MIME
type is neither `audio/*` nor `video/*` (including the mkv special case)
resolve to no error without creating a media element.  `metadataLoads`
selects between the `onloadedmetadata` and `onerror` callbacks of the probe
element; `onerror` resolves to no error (best-effort policy). -/
def validateDuration (credits : Option UserCredits) (file : DomFile)
    (metadataLoads : Bool) : DurationProbe :=
  let isAudio := jsStartsWith file.type "audio/"
  let isVideo := jsStartsWith file.type "video/"
  if !isAudio && !isVideo then
    { ran := false, result := none }
  else if metadataLoads then
    let durationMins := file.duration / 60
    let max := getMaxDuration credits
    if durationMins > max then
      { ran := true, result := some durationExceededMsg }
    else
      { ran := true, result := none }
  else
    { ran := true, result := none }

/-- `checkCredits` (dashboard/page.tsx lines 237-242): false while the
balance has not loaded, otherwise `free + paid >= 1`. -/
def checkCredits (credits : Option UserCredits) : Bool :=
  match credits with
  | none => false
  | some c => decide (1 ≤ c.free + c.paid)

/-- The `updateFile` helper of `processFile` (dashboard/page.tsx
lines 169-171). -/
def updateFile (files : List FileItem) (fileId : Nat) (upd : FileItem → FileItem) :
    List FileItem :=
  files.map (fun f => if f.id = fileId then upd f else f)

/-- The `fileItem` literal created at the start of `processFile`
(dashboard/page.tsx lines 159-164). -/
def freshSession (s : DashboardState) (file : DomFile) : FileItem :=
  { id := s.nextId, name := file.name, status := FileStatus.processing,
    progress := some 0, result := none, partialResult := none, error := none }

/-- The start of `processFile` (dashboard/page.tsx lines 157-186): create the
session in `processing` state, select it, bump progress to 10 and post the
file to `/api/process`. -/
def processFileStart (s : DashboardState) (uid : Option String) (file : DomFile) :
    StepResult :=
  let s1 := { s with files := freshSession s file :: s.files,
                     selectedFileId := some s.nextId, nextId := s.nextId + 1 }
  let files2 := updateFile s1.files s.nextId (fun f => { f with progress := some 10 })
  let s2 := { s1 with files := files2 }
  { state := s2, calls := [NetworkCall.processRequest uid file],
    alerts := [], mediaProbed := false }

/-- The parsed JSON body of a non-ok `/api/process` response.  The code reads
`status` to recognise a partial failure, casts the whole body to
`PartialResult` in that case, and otherwise falls back through
`data.error || data.detail`; absent JSON fields are the empty string. -/
structure ProcessFailBody where
  status : String
  stage : String
  original_filename : String
  duration_minutes : ℚ
  transcript : String
  cache_key : String
  error : String
  message : String
  detail : String
deriving DecidableEq

/-- The non-ok response body viewed `as PartialResult`
(dashboard/page.tsx line 195). -/
def ProcessFailBody.toPartialResult (b : ProcessFailBody) : PartialResult :=
  { status := b.status, stage := b.stage,
    original_filename := b.original_filename,
    duration_minutes := b.duration_minutes, transcript := b.transcript,
    cache_key := b.cache_key, error := b.error, message := b.message }

/-- How the `/api/process` fetch of `processFile` resolved. -/
inductive ProcessOutcome where
  /-- `response.ok`: the 200 body. -/
  | ok (data : ProcessingResult)
  /-- `!response.ok`: the parsed error body. -/
  | fail (body : ProcessFailBody)
  /-- The fetch or JSON parse threw; `msg` is `err.message` when the thrown
  value was an `Error`. -/
  | exn (msg : Option String)
deriving DecidableEq

/-- The settlement half of `processFile` (dashboard/page.tsx lines 188-219):
the response/exception handling for the session `fileId`. -/
def processFileSettle (s : DashboardState) (uid : Option String) (fileId : Nat)
    (o : ProcessOutcome) : StepResult :=
  match o with
  | ProcessOutcome.ok data =>
    { state := { s with files := updateFile s.files fileId (fun f =>
        { f with status := FileStatus.completed, progress := some 100,
                 result := some data }) },
      calls := balanceCalls uid, alerts := [], mediaProbed := false }
  | ProcessOutcome.fail body =>
    if body.status = "partial" then
      { state := { s with files := updateFile s.files fileId (fun f =>
          { f with status := FileStatus.error, progress := some 100,
                   partialResult := some body.toPartialResult }) },
        calls := [], alerts := [], mediaProbed := false }
    else
      { state := { s with files := updateFile s.files fileId (fun f =>
          { f with status := FileStatus.error, progress := some 100,
                   error := some (jsOr body.error
                     (jsOr body.detail "Terjadi kesalahan")) }) },
        calls := [], alerts := [], mediaProbed := false }
  | ProcessOutcome.exn msg =>
    { state := { s with files := updateFile s.files fileId (fun f =>
        { f with status := FileStatus.error, progress := some 100,
                 error := some (msg.getD "Terjadi kesalahan") }) },
      calls := [], alerts := [], mediaProbed := false }

/-- `handleFileInput` (dashboard/page.tsx lines 244-274): guard on
`isProcessing`, then on credits, then validate the file, then run the
duration probe, and only then start `processFile`. -/
def handleFileInput (s : DashboardState) (uid : Option String)
    (file : Option DomFile) (metadataLoads : Bool) : StepResult :=
  if isProcessing s then
    { state := s, calls := [], alerts := [], mediaProbed := false }
  else if !(checkCredits s.userCredits) then
    { state := s, calls := [],
      alerts := ["Credit tidak cukup. Silakan top up credit Anda."],
      mediaProbed := false }
  else
    match file with
    | none => { state := s, calls := [], alerts := [], mediaProbed := false }
    | some f =>
      match validateFile f with
      | some err =>
        { state := s, calls := [], alerts := [err], mediaProbed := false }
      | none =>
        let probe := validateDuration s.userCredits f metadataLoads
        match probe.result with
        | some durationError =>
          { state := s, calls := [], alerts := [durationError],
            mediaProbed := probe.ran }
        | none =>
          let r := processFileStart s uid f
          { r with mediaProbed := probe.ran }

/-- `handleDrop` (dashboard/page.tsx lines 276-305): identical guard and
validation sequence over `e.dataTransfer.files[0]` (the `setIsDragging`
bookkeeping has no modelled effect). -/
def handleDrop (s : DashboardState) (uid : Option String)
    (file : Option DomFile) (metadataLoads : Bool) : StepResult :=
  if isProcessing s then
    { state := s, calls := [], alerts := [], mediaProbed := false }
  else if !(checkCredits s.userCredits) then
    { state := s, calls := [],
      alerts := ["Credit tidak cukup. Silakan top up credit Anda."],
      mediaProbed := false }
  else
    match file with
    | none => { state := s, calls := [], alerts := [], mediaProbed := false }
    | some f =>
      match validateFile f with
      | some err =>
        { state := s, calls := [], alerts := [err], mediaProbed := false }
      | none =>
        let probe := validateDuration s.userCredits f metadataLoads
        match probe.result with
        | some durationError =>
          { state := s, calls := [], alerts := [durationError],
            mediaProbed := probe.ran }
        | none =>
          let r := processFileStart s uid f
          { r with mediaProbed := probe.ran }

/-- `const selectedFile = files.find(f => f.id === selectedFileId)`
(dashboard/page.tsx line 231). -/
def selectedFile (s : DashboardState) : Option FileItem :=
  match s.selectedFileId with
  | none => none
  | some id => s.files.find? (fun f => f.id == id)

/-- The guard of `handleRetrySummarization` (dashboard/page.tsx line 315):
`selectedFile?.partialResult?.cache_key` must be truthy (present and not the
empty string); returns that cache key. -/
def retryGuard (s : DashboardState) : Option String :=
  match selectedFile s with
  | none => none
  | some f =>
    match f.partialResult with
    | none => none
    | some p => if p.cache_key = "" then none else some p.cache_key

/-- How the `/api/retry-summary` fetch resolved. -/
inductive RetryOutcome where
  /-- `response.ok`: the 200 body. -/
  | ok (data : ProcessingResult)
  /-- Not ok or thrown: `msg` is the alert text
  (`err.message` or "Gagal retry"). -/
  | fail (msg : String)
deriving DecidableEq

/-- `handleRetrySummarization` (dashboard/page.tsx lines 314-345): when the
guard passes, post `{cache_key}`; on success mark the selected session
completed with the response as its result and clear `partialResult` and
`error`, then refresh credits; on failure only alert — the session list is
untouched. -/
def handleRetrySummarization (s : DashboardState) (uid : Option String)
    (o : RetryOutcome) : StepResult :=
  match retryGuard s with
  | none => { state := s, calls := [], alerts := [], mediaProbed := false }
  | some key =>
    match o with
    | RetryOutcome.ok data =>
      { state := { s with
          files := s.files.map (fun f =>
            if some f.id = s.selectedFileId then
              { f with status := FileStatus.completed, result := some data,
                       partialResult := none, error := none }
            else f),
          isRetrying := false },
        calls := NetworkCall.retryRequest key :: balanceCalls uid,
        alerts := [], mediaProbed := false }
    | RetryOutcome.fail msg =>
      { state := { s with isRetrying := false },
        calls := [NetworkCall.retryRequest key],
        alerts := [msg], mediaProbed := false }

/-- The dashboard's initial state (dashboard/page.tsx lines 53-58): empty
session list, nothing selected, no retry in flight, balance not yet
fetched. -/
def initState : DashboardState :=
  { files := [], selectedFileId := none, isRetrying := false,
    userCredits := none, nextId := 0 }

/-- The dashboard states reachable from the initial state under the modelled
event handlers, for a fixed authenticated user `uid`, under the *sequential
schedule*: each upload handler runs to completion with its duration probe
resolved inline, so the interleavings the event loop allows between an
upload's `isProcessing` guard and its session creation (the handler `await`s
`validateDuration(file)` in between, dashboard/page.tsx lines 266 and 297)
are not represented here — `ReachableAsync` below keeps them.  Settlement
events for a session require every session carrying that id to still be
`processing` (session ids are fresh UUIDs in the source, and a
`/api/process` response settles exactly the session whose request created
it, which stays `processing` until then). -/
inductive Reachable (uid : Option String) : DashboardState → Prop where
  | init : Reachable uid initState
  | setCredits {s : DashboardState} (c : UserCredits) :
      Reachable uid s → Reachable uid { s with userCredits := some c }
  | selectFile {s : DashboardState} (id : Nat)
      (hmem : s.files.any (fun f => f.id == id) = true) :
      Reachable uid s → Reachable uid { s with selectedFileId := some id }
  | fileInput {s : DashboardState} (file : Option DomFile) (metadataLoads : Bool) :
      Reachable uid s →
      Reachable uid (handleFileInput s uid file metadataLoads).state
  | drop {s : DashboardState} (file : Option DomFile) (metadataLoads : Bool) :
      Reachable uid s →
      Reachable uid (handleDrop s uid file metadataLoads).state
  | processSettle {s : DashboardState} (fileId : Nat) (o : ProcessOutcome)
      (htarget : ∀ f ∈ s.files, f.id = fileId → f.status = FileStatus.processing) :
      Reachable uid s →
      Reachable uid (processFileSettle s uid fileId o).state
  | retry {s : DashboardState} (o : RetryOutcome) :
      Reachable uid s →
      Reachable uid (handleRetrySummarization s uid o).state

/-! ## Interleaving-faithful upload flow

`handleFileInput` and `handleDrop` both `await validateDuration(file)`
between their `isProcessing` guard and `processFile`'s session creation
(dashboard/page.tsx lines 266 and 297).  While a media file's metadata probe
is pending — its promise resolves from a later `onloadedmetadata`/`onerror`
macrotask — other UI events run, and in particular a second upload passes
the still-false `isProcessing` guard.  The refinement below makes those
pending probes explicit.  A file that creates no media element (MIME type
neither `audio/*` nor `video/*`, including the mkv case) resolves its
promise synchronously, so its continuation runs on the very next microtask,
before any other UI event: such uploads stay atomic. -/

/-- An upload suspended on `await validateDuration(file)`: the chosen file
together with the `userCredits` value captured by the handler's render
closure (read later by `getMaxDuration`). -/
structure PendingUpload where
  file : DomFile
  credits : Option UserCredits
deriving DecidableEq

/-- Dashboard state refined with the uploads whose duration probes are
pending. -/
structure AsyncDashboardState where
  core : DashboardState
  pending : List PendingUpload
deriving DecidableEq

/-- Result of one step of the interleaving-faithful upload flow. -/
structure StepResultAsync where
  state : AsyncDashboardState
  calls : List NetworkCall
  alerts : List String
  mediaProbed : Bool
deriving DecidableEq

/-- The synchronous prefix of `handleFileInput`/`handleDrop`
(dashboard/page.tsx lines 244-266 and 276-297), up to the
`await validateDuration(file)`: the `isProcessing` and credit guards and
`validateFile` run first; a file whose MIME type is `audio/*` or `video/*`
creates a media element and leaves the upload pending until its metadata
callback fires; any other file continues synchronously into `processFile`. -/
def uploadStart (s : AsyncDashboardState) (uid : Option String)
    (file : Option DomFile) : StepResultAsync :=
  if isProcessing s.core then
    { state := s, calls := [], alerts := [], mediaProbed := false }
  else if !(checkCredits s.core.userCredits) then
    { state := s, calls := [],
      alerts := ["Credit tidak cukup. Silakan top up credit Anda."],
      mediaProbed := false }
  else
    match file with
    | none => { state := s, calls := [], alerts := [], mediaProbed := false }
    | some f =>
      match validateFile f with
      | some err =>
        { state := s, calls := [], alerts := [err], mediaProbed := false }
      | none =>
        if jsStartsWith f.type "audio/" || jsStartsWith f.type "video/" then
          { state := { s with pending := s.pending ++ [⟨f, s.core.userCredits⟩] },
            calls := [], alerts := [], mediaProbed := true }
        else
          let r := processFileStart s.core uid f
          { state := ⟨r.state, s.pending⟩, calls := r.calls, alerts := r.alerts,
            mediaProbed := false }

/-- The continuation of an upload after its duration probe resolves
(dashboard/page.tsx lines 266-273 and 297-304): the pending entry at index
`i` (probes may resolve in any order) is removed, its duration validated
against the captured credits, and on success `processFile` runs — without
re-checking `isProcessing` or the credits. -/
def probeResolve (s : AsyncDashboardState) (uid : Option String) (i : Nat)
    (metadataLoads : Bool) : StepResultAsync :=
  match s.pending.get? i with
  | none => { state := s, calls := [], alerts := [], mediaProbed := false }
  | some entry =>
    let rest := s.pending.eraseIdx i
    let probe := validateDuration entry.credits entry.file metadataLoads
    match probe.result with
    | some durationError =>
      { state := ⟨s.core, rest⟩, calls := [], alerts := [durationError],
        mediaProbed := false }
    | none =>
      let r := processFileStart s.core uid entry.file
      { state := ⟨r.state, rest⟩, calls := r.calls, alerts := r.alerts,
        mediaProbed := false }

/-- The dashboard states reachable under the interleaving-faithful upload
flow: as `Reachable`, but with an upload's guard-and-validation prefix and
its probe continuation as separate events, so a second upload may run while
the first's probe is pending. -/
inductive ReachableAsync (uid : Option String) : AsyncDashboardState → Prop where
  | init : ReachableAsync uid ⟨initState, []⟩
  | setCredits {s : AsyncDashboardState} (c : UserCredits) :
      ReachableAsync uid s →
      ReachableAsync uid ⟨{ s.core with userCredits := some c }, s.pending⟩
  | selectFile {s : AsyncDashboardState} (id : Nat)
      (hmem : s.core.files.any (fun f => f.id == id) = true) :
      ReachableAsync uid s →
      ReachableAsync uid ⟨{ s.core with selectedFileId := some id }, s.pending⟩
  | upload {s : AsyncDashboardState} (file : Option DomFile) :
      ReachableAsync uid s →
      ReachableAsync uid (uploadStart s uid file).state
  | probe {s : AsyncDashboardState} (i : Nat) (metadataLoads : Bool) :
      ReachableAsync uid s →
      ReachableAsync uid (probeResolve s uid i metadataLoads).state
  | processSettle {s : AsyncDashboardState} (fileId : Nat) (o : ProcessOutcome)
      (htarget : ∀ f ∈ s.core.files, f.id = fileId → f.status = FileStatus.processing) :
      ReachableAsync uid s →
      ReachableAsync uid ⟨(processFileSettle s.core uid fileId o).state, s.pending⟩
  | retry {s : AsyncDashboardState} (o : RetryOutcome) :
      ReachableAsync uid s →
      ReachableAsync uid ⟨(handleRetrySummarization s.core uid o).state, s.pending⟩

/-! ## Invariant machinery for the dashboard session list -/

/-- Number of sessions currently shown as `processing`. -/
def processingCount (files : List FileItem) : Nat :=
  (files.filter (fun f => f.status == FileStatus.processing)).length

/-- Number of the three optional outcome fields (`result`, `partialResult`,
`error`) that are set on a session. -/
def definedCount (f : FileItem) : Nat :=
  (if f.result.isSome then 1 else 0) + (if f.partialResult.isSome then 1 else 0)
    + (if f.error.isSome then 1 else 0)

/-- Per-session invariant: at most one outcome field is set, and a session
still in `processing` has none set. -/
def SessionInv (f : FileItem) : Prop :=
  definedCount f ≤ 1 ∧ (f.status = FileStatus.processing → definedCount f = 0)

/-- Global dashboard invariant: at most one session is processing, and every
session satisfies `SessionInv`. -/
def DashboardInv (s : DashboardState) : Prop :=
  processingCount s.files ≤ 1 ∧ ∀ f ∈ s.files, SessionInv f

/-! ## Concrete sample values used by counterexamples and witnesses -/

def sampleCredits : UserCredits :=
  { total := 2, free := 1, paid := 1, maxDuration := 20 }

def samplePartial : PartialResult :=
  { status := "partial", stage := "summary", original_filename := "meeting.mp4",
    duration_minutes := 12, transcript := "halo semua", cache_key := "abc123",
    error := "LLM unavailable", message := "Transkripsi berhasil" }

def partialSession : FileItem :=
  { id := 0, name := "meeting.mp4", status := FileStatus.error,
    progress := some 100, result := none, partialResult := some samplePartial,
    error := none }

def partialState : DashboardState :=
  { files := [partialSession], selectedFileId := some 0, isRetrying := false,
    userCredits := some sampleCredits, nextId := 1 }

def emptySummary : Summary :=
  { ringkasan_singkat := "rapat singkat", poin_penting := [], action_items := [] }

def samplePurchase : Purchase :=
  { id := "p1", user_id := "u1", package_id := "starter", credits := 10,
    amount := 50000, status := "pending", proof_url := "proofs/f.png",
    proof_filename := "f.png", admin_notes := none,
    created_at := "2026-01-01T00:00:00Z", verified_at := none,
    user_email := none, user_name := none }

def adminAuthedState : AdminState :=
  { purchases := [samplePurchase], history := [], loading := false,
    adminKey := "secret", authenticated := true,
    selectedPurchase := some samplePurchase, actionLoading := none,
    error := none, storedKey := some "secret" }

def readyState : DashboardState :=
  { files := [], selectedFileId := none, isRetrying := false,
    userCredits := some sampleCredits, nextId := 0 }

def badExtFile : DomFile :=
  { name := "notes.txt", size := 100, type := "text/plain", duration := 0 }

def witnessFile : DomFile :=
  { name := "standup.mp3", size := 1000, type := "audio/mpeg", duration := 300 }

def sampleFailBody : ProcessFailBody :=
  { status := "partial", stage := "summary", original_filename := "meeting.mp4",
    duration_minutes := 12, transcript := "halo semua", cache_key := "abc123",
    error := "LLM unavailable", message := "Transkripsi berhasil", detail := "" }

def sampleResult : ProcessingResult :=
  { status := "success", original_filename := "meeting.mp4",
    duration_minutes := 12, transcript := "halo semua",
    summary := { ringkasan_singkat := "ringkas", poin_penting := ["poin"],
                 action_items := [] },
    cache_key := none }

def brokeCredits : UserCredits :=
  { total := 0, free := 0, paid := 0, maxDuration := 20 }

def brokeState : DashboardState :=
  { files := [], selectedFileId := none, isRetrying := false,
    userCredits := some brokeCredits, nextId := 0 }

def creditedState : DashboardState :=
  { initState with userCredits := some sampleCredits }

def uploadedState : DashboardState :=
  (handleFileInput creditedState none (some witnessFile) true).state

def witnessFile2 : DomFile :=
  { name := "retro.mp3", size := 2000, type := "audio/mpeg", duration := 300 }

def pendingFirst : PendingUpload :=
  { file := witnessFile, credits := some sampleCredits }

def pendingSecond : PendingUpload :=
  { file := witnessFile2, credits := some sampleCredits }

def sessionA : FileItem :=
  { id := 0, name := witnessFile.name, status := FileStatus.processing,
    progress := some 10, result := none, partialResult := none, error := none }

def sessionB : FileItem :=
  { id := 1, name := witnessFile2.name, status := FileStatus.processing,
    progress := some 10, result := none, partialResult := none, error := none }

def coreA : DashboardState :=
  { files := [sessionA], selectedFileId := some 0, isRetrying := false,
    userCredits := some sampleCredits, nextId := 1 }

def coreB : DashboardState :=
  { files := [sessionB, sessionA], selectedFileId := some 1, isRetrying := false,
    userCredits := some sampleCredits, nextId := 2 }

/-- The interleaved run refuting the at-most-one-processing invariant: two
audio uploads accepted while each other's duration probe is pending, then
both probes resolving. -/
def overlapTrace : AsyncDashboardState :=
  (probeResolve
    (probeResolve
      (uploadStart
        (uploadStart ⟨creditedState, []⟩ none (some witnessFile)).state
        none (some witnessFile2)).state
      none 0 true).state
    none 0 true).state

def samplePackage : PackageData :=
  { id := "starter", name := "Starter", credits := 10, price := 50000,
    price_formatted := "Rp 50.000" }

def sampleProof : DomFile :=
  { name := "proof.png", size := 1000, type := "image/png", duration := 0 }

def badProof : DomFile :=
  { name := "doc.pdf", size := 1000, type := "application/pdf", duration := 0 }

def proofSelectedState : BuyCreditsState :=
  { selectedPackage := some samplePackage, proofFile := some sampleProof,
    submitting := false, error := none }

lemma processingCount_cons (f : FileItem) (l : List FileItem) :
    processingCount (f :: l)
      = (if f.status == FileStatus.processing then 1 else 0) + processingCount l := by
  by_cases h : (f.status == FileStatus.processing) = true
  · simp [processingCount, List.filter_cons, h, Nat.add_comm]
  · simp [processingCount, List.filter_cons, h]

lemma processingCount_map_le (l : List FileItem) (g : FileItem → FileItem)
    (hg : ∀ x, (g x).status = FileStatus.processing → x.status = FileStatus.processing) :
    processingCount (l.map g) ≤ processingCount l := by
  induction l with
  | nil => simp [processingCount]
  | cons a t ih =>
    rw [List.map_cons, processingCount_cons, processingCount_cons]
    have h1 : (if (g a).status == FileStatus.processing then 1 else 0)
        ≤ (if a.status == FileStatus.processing then 1 else 0) := by
      by_cases h : ((g a).status == FileStatus.processing) = true
      · have ha : a.status = FileStatus.processing := hg a (by simpa using h)
        simp [h, ha]
      · simp [h]
    exact Nat.add_le_add h1 ih

lemma processingCount_eq_zero_of_any_false {l : List FileItem}
    (h : l.any (fun f => f.status == FileStatus.processing) = false) :
    processingCount l = 0 := by
  induction l with
  | nil => rfl
  | cons a t ih =>
    simp only [List.any_cons, Bool.or_eq_false_iff] at h
    rw [processingCount_cons]
    simp [h.1, ih h.2]

lemma definedCount_eq_zero {f : FileItem} (h : definedCount f = 0) :
    f.result = none ∧ f.partialResult = none ∧ f.error = none := by
  rcases hr : f.result with _ | r
  · rcases hp : f.partialResult with _ | p
    · rcases he : f.error with _ | e
      · exact ⟨rfl, rfl, rfl⟩
      · simp [definedCount, hr, hp, he] at h
    · simp [definedCount, hr, hp] at h
  · simp [definedCount, hr] at h

lemma processFileStart_state_files (s : DashboardState) (uid : Option String)
    (f : DomFile) :
    (processFileStart s uid f).state.files
      = updateFile (freshSession s f :: s.files) s.nextId
          (fun x => { x with progress := some 10 }) := rfl

lemma processFileStart_inv {s : DashboardState} {uid : Option String} {f : DomFile}
    (hnp : isProcessing s = false) (ih : DashboardInv s) :
    DashboardInv (processFileStart s uid f).state := by
  have h0 : processingCount s.files = 0 := processingCount_eq_zero_of_any_false hnp
  have hg : ∀ x : FileItem,
      ((fun x : FileItem =>
          if x.id = s.nextId then { x with progress := some 10 } else x) x).status
        = FileStatus.processing → x.status = FileStatus.processing := by
    intro x hx
    by_cases hid : x.id = s.nextId
    · show x.status = FileStatus.processing
      rw [show ((fun x : FileItem =>
          if x.id = s.nextId then { x with progress := some 10 } else x) x)
            = { x with progress := some 10 } from by simp [hid]] at hx
      exact hx
    · simpa [hid] using hx
  constructor
  · have hle := processingCount_map_le (freshSession s f :: s.files)
      (fun x => if x.id = s.nextId then { x with progress := some 10 } else x) hg
    rw [processingCount_cons] at hle
    have hfs : ((freshSession s f).status == FileStatus.processing) = true := by
      simp [freshSession]
    rw [hfs] at hle
    simp only [if_true, h0] at hle
    rw [processFileStart_state_files]
    unfold updateFile
    exact hle
  · intro x hx
    rw [processFileStart_state_files] at hx
    unfold updateFile at hx
    rcases List.mem_map.mp hx with ⟨y, hy, rfl⟩
    rcases List.mem_cons.mp hy with rfl | hy'
    · by_cases hid : (freshSession s f).id = s.nextId
      · simp [hid, SessionInv, definedCount, freshSession]
      · simp [hid, SessionInv, definedCount, freshSession]
    · have hsy := ih.2 y hy'
      by_cases hid : y.id = s.nextId
      · show SessionInv (if y.id = s.nextId then { y with progress := some 10 } else y)
        rw [if_pos hid]
        exact hsy
      · show SessionInv (if y.id = s.nextId then { y with progress := some 10 } else y)
        rw [if_neg hid]
        exact hsy

lemma updateFile_inv {files : List FileItem} {fileId : Nat} {g : FileItem → FileItem}
    (hcount : ∀ x : FileItem, (g x).status ≠ FileStatus.processing)
    (hdef : ∀ x : FileItem, x.result = none → x.partialResult = none →
        x.error = none → definedCount (g x) ≤ 1)
    (hinv1 : processingCount files ≤ 1)
    (hinv2 : ∀ f ∈ files, SessionInv f)
    (htarget : ∀ f ∈ files, f.id = fileId → f.status = FileStatus.processing) :
    processingCount (updateFile files fileId g) ≤ 1
      ∧ ∀ f ∈ updateFile files fileId g, SessionInv f := by
  constructor
  · refine le_trans (processingCount_map_le files
      (fun x => if x.id = fileId then g x else x) ?_) hinv1
    intro x hx
    by_cases hid : x.id = fileId
    · exact absurd (by simpa [hid] using hx) (hcount x)
    · simpa [hid] using hx
  · intro x hx
    unfold updateFile at hx
    rcases List.mem_map.mp hx with ⟨y, hy, rfl⟩
    by_cases hid : y.id = fileId
    · show SessionInv (if y.id = fileId then g y else y)
      rw [if_pos hid]
      have hys : y.status = FileStatus.processing := htarget y hy hid
      obtain ⟨hr, hp, he⟩ := definedCount_eq_zero ((hinv2 y hy).2 hys)
      exact ⟨hdef y hr hp he, fun hc => absurd hc (hcount y)⟩
    · show SessionInv (if y.id = fileId then g y else y)
      rw [if_neg hid]
      exact hinv2 y hy

lemma processFileSettle_inv {s : DashboardState} {uid : Option String} {fileId : Nat}
    {o : ProcessOutcome}
    (htarget : ∀ f ∈ s.files, f.id = fileId → f.status = FileStatus.processing)
    (ih : DashboardInv s) :
    DashboardInv (processFileSettle s uid fileId o).state := by
  cases o with
  | ok data =>
    exact updateFile_inv (fun x h => by cases h)
      (fun x hr hp he => by simp [definedCount, hp, he]) ih.1 ih.2 htarget
  | fail body =>
    by_cases hb : body.status = "partial"
    · simp only [processFileSettle]
      rw [if_pos hb]
      exact updateFile_inv (fun x h => by cases h)
        (fun x hr hp he => by simp [definedCount, hr, he]) ih.1 ih.2 htarget
    · simp only [processFileSettle]
      rw [if_neg hb]
      exact updateFile_inv (fun x h => by cases h)
        (fun x hr hp he => by simp [definedCount, hr, hp]) ih.1 ih.2 htarget
  | exn msg =>
    exact updateFile_inv (fun x h => by cases h)
      (fun x hr hp he => by simp [definedCount, hr, hp]) ih.1 ih.2 htarget

lemma handleRetrySummarization_inv {s : DashboardState} {uid : Option String}
    {o : RetryOutcome} (ih : DashboardInv s) :
    DashboardInv (handleRetrySummarization s uid o).state := by
  unfold handleRetrySummarization
  rcases hgd : retryGuard s with _ | key
  · exact ih
  · cases o with
    | fail msg => exact ih
    | ok data =>
      constructor
      · refine le_trans (processingCount_map_le s.files
          (fun f => if some f.id = s.selectedFileId then
            { f with status := FileStatus.completed, result := some data,
                     partialResult := none, error := none }
            else f) ?_) ih.1
        intro x hx
        by_cases hid : some x.id = s.selectedFileId
        · simp [hid] at hx
        · simpa [hid] using hx
      · intro x hx
        simp only [List.mem_map] at hx
        rcases hx with ⟨y, hy, rfl⟩
        by_cases hid : some y.id = s.selectedFileId
        · show SessionInv (if some y.id = s.selectedFileId then
            { y with status := FileStatus.completed, result := some data,
                     partialResult := none, error := none } else y)
          rw [if_pos hid]
          exact ⟨by simp [definedCount], fun hc => by cases hc⟩
        · show SessionInv (if some y.id = s.selectedFileId then
            { y with status := FileStatus.completed, result := some data,
                     partialResult := none, error := none } else y)
          rw [if_neg hid]
          exact ih.2 y hy

lemma handleFileInput_state_cases (s : DashboardState) (uid : Option String)
    (file : Option DomFile) (ml : Bool) :
    (handleFileInput s uid file ml).state = s ∨
    (isProcessing s = false ∧ ∃ f : DomFile,
      (handleFileInput s uid file ml).state = (processFileStart s uid f).state) := by
  unfold handleFileInput
  cases hip : isProcessing s with
  | true => left; simp [hip]
  | false =>
    cases hcc : checkCredits s.userCredits with
    | false => left; simp [hip, hcc]
    | true =>
      cases file with
      | none => left; simp [hip, hcc]
      | some f =>
        cases hv : validateFile f with
        | some err => left; simp [hip, hcc, hv]
        | none =>
          cases hpr : (validateDuration s.userCredits f ml).result with
          | some derr => left; simp [hip, hcc, hv, hpr]
          | none =>
            right
            exact ⟨rfl, f, by simp [hcc, hv, hpr]⟩

lemma handleDrop_state_cases (s : DashboardState) (uid : Option String)
    (file : Option DomFile) (ml : Bool) :
    (handleDrop s uid file ml).state = s ∨
    (isProcessing s = false ∧ ∃ f : DomFile,
      (handleDrop s uid file ml).state = (processFileStart s uid f).state) := by
  unfold handleDrop
  cases hip : isProcessing s with
  | true => left; simp [hip]
  | false =>
    cases hcc : checkCredits s.userCredits with
    | false => left; simp [hip, hcc]
    | true =>
      cases file with
      | none => left; simp [hip, hcc]
      | some f =>
        cases hv : validateFile f with
        | some err => left; simp [hip, hcc, hv]
        | none =>
          cases hpr : (validateDuration s.userCredits f ml).result with
          | some derr => left; simp [hip, hcc, hv, hpr]
          | none =>
            right
            exact ⟨rfl, f, by simp [hcc, hv, hpr]⟩

/-- Every reachable dashboard state satisfies the global invariant. -/
lemma reachable_inv {uid : Option String} {s : DashboardState}
    (h : Reachable uid s) : DashboardInv s := by
  induction h with
  | init =>
    exact ⟨by decide, by intro f hf; simp [initState] at hf⟩
  | setCredits c hR ih => exact ih
  | selectFile id hmem hR ih => exact ih
  | @fileInput s' file ml hR ih =>
    rcases handleFileInput_state_cases s' uid file ml with heq | ⟨hnp, f, heq⟩
    · rw [heq]; exact ih
    · rw [heq]; exact processFileStart_inv hnp ih
  | @drop s' file ml hR ih =>
    rcases handleDrop_state_cases s' uid file ml with heq | ⟨hnp, f, heq⟩
    · rw [heq]; exact ih
    · rw [heq]; exact processFileStart_inv hnp ih
  | @processSettle s' fileId o htarget hR ih =>
    exact processFileSettle_inv htarget ih
  | @retry s' o hR ih =>
    exact handleRetrySummarization_inv ih

/-! ## Claim theorems -/

lemma retryGuard_eq_of {s : DashboardState} {f : FileItem} {p : PartialResult}
    (hsel : selectedFile s = some f) (hp : f.partialResult = some p)
    (hkey : p.cache_key ≠ "") : retryGuard s = some p.cache_key := by
  simp only [retryGuard, hsel, hp]
  rw [if_neg hkey]

/-- C1: a non-ok `/api/process` response with body status `"partial"` is
stored verbatim as the session's `partialResult` (in particular its
`transcript` and `cache_key` fields are unchanged); a subsequent retry from
any state whose selected session holds such a partial result posts exactly
the body `{cache_key}` with the stored key as its first (and only request)
call; and when the retry response is ok, the selected session's final
`result` is the retry response, so its transcript and summary equal the
response's fields. -/
theorem partial_response_roundtrip
    (s s2 : DashboardState) (uid : Option String) (fileId : Nat)
    (body : ProcessFailBody) (data : ProcessingResult)
    (f2 : FileItem) (p : PartialResult)
    (hstat : body.status = "partial")
    (hsel : selectedFile s2 = some f2)
    (hp : f2.partialResult = some p)
    (hkey : p.cache_key ≠ "") :
    ((processFileSettle s uid fileId (ProcessOutcome.fail body)).state.files
        = updateFile s.files fileId (fun f =>
            { f with status := FileStatus.error, progress := some 100,
                     partialResult := some body.toPartialResult })
      ∧ body.toPartialResult.transcript = body.transcript
      ∧ body.toPartialResult.cache_key = body.cache_key)
    ∧ (∀ o : RetryOutcome,
        (handleRetrySummarization s2 uid o).calls.head?
          = some (NetworkCall.retryRequest p.cache_key))
    ∧ (∀ x ∈ (handleRetrySummarization s2 uid (RetryOutcome.ok data)).state.files,
        s2.selectedFileId = some x.id →
        x.result = some data ∧ x.status = FileStatus.completed
          ∧ x.result.map ProcessingResult.transcript = some data.transcript
          ∧ x.result.map ProcessingResult.summary = some data.summary) := by
  have hg := retryGuard_eq_of hsel hp hkey
  refine ⟨⟨?_, rfl, rfl⟩, ?_, ?_⟩
  · simp only [processFileSettle]
    rw [if_pos hstat]
  · intro o
    unfold handleRetrySummarization
    rw [hg]
    cases o <;> rfl
  · intro x hx hid
    unfold handleRetrySummarization at hx
    rw [hg] at hx
    simp only [List.mem_map] at hx
    rcases hx with ⟨y, hy, rfl⟩
    by_cases hid2 : some y.id = s2.selectedFileId
    · simp [hid2]
    · exfalso
      simp only [hid2, if_false] at hid
      exact hid2 hid.symm

/-- C2: when an upload attempt reaches validation (no session processing,
credits sufficient), a file whose extension is outside the allow-list is
rejected with the unsupported-format alert, issuing no network call, running
no duration probe, and leaving the state (hence the session list) unchanged;
moreover from any state at all, submitting such a file never issues a
network call and never adds a session. -/
theorem unsupported_format_rejected
    (s : DashboardState) (uid : Option String) (f : DomFile) (ml : Bool)
    (hnp : isProcessing s = false)
    (hcc : checkCredits s.userCredits = true)
    (hext : ALLOWED_EXTENSIONS.contains
        ("." ++ jsToLower ((jsSplitDot f.name).getLastD "")) = false) :
    handleFileInput s uid (some f) ml
        = { state := s, calls := [], alerts := ["Format file tidak didukung"],
            mediaProbed := false }
    ∧ handleDrop s uid (some f) ml
        = { state := s, calls := [], alerts := ["Format file tidak didukung"],
            mediaProbed := false }
    ∧ (∀ s' : DashboardState,
        (handleFileInput s' uid (some f) ml).state.files = s'.files
          ∧ (handleFileInput s' uid (some f) ml).calls = []
          ∧ (handleDrop s' uid (some f) ml).state.files = s'.files
          ∧ (handleDrop s' uid (some f) ml).calls = []) := by
  have hv : validateFile f = some "Format file tidak didukung" := by
    show (if !(ALLOWED_EXTENSIONS.contains
            ("." ++ jsToLower ((jsSplitDot f.name).getLastD "")))
          then some "Format file tidak didukung"
          else if f.size > MAX_FILE_SIZE then some "File terlalu besar (max 50MB)"
          else none)
        = some "Format file tidak didukung"
    rw [hext]
    rfl
  refine ⟨?_, ?_, ?_⟩
  · unfold handleFileInput
    simp [hnp, hcc, hv]
  · unfold handleDrop
    simp [hnp, hcc, hv]
  · intro s'
    unfold handleFileInput handleDrop
    cases h1 : isProcessing s' with
    | true => simp [h1]
    | false =>
      cases h2 : checkCredits s'.userCredits with
      | true => simp [h1, h2, hv]
      | false => simp [h1, h2]

/-- C3: with the balance loaded and `free + paid < 1`, an upload attempt (via
the file input or via drop) from a state with no session processing is
refused with the insufficient-credits alert, regardless of the file — no
network call, no duration probe (no media element), no session added. -/
theorem insufficient_credits_rejected
    (s : DashboardState) (uid : Option String) (f : DomFile) (ml : Bool)
    (c : UserCredits)
    (hnp : isProcessing s = false)
    (hc : s.userCredits = some c)
    (hlt : c.free + c.paid < 1) :
    handleFileInput s uid (some f) ml
        = { state := s, calls := [],
            alerts := ["Credit tidak cukup. Silakan top up credit Anda."],
            mediaProbed := false }
    ∧ handleDrop s uid (some f) ml
        = { state := s, calls := [],
            alerts := ["Credit tidak cukup. Silakan top up credit Anda."],
            mediaProbed := false } := by
  have hcc : checkCredits s.userCredits = false := by
    rw [hc]
    show decide (1 ≤ c.free + c.paid) = false
    exact decide_eq_false (not_le.mpr hlt)
  constructor
  · unfold handleFileInput
    simp [hnp, hcc]
  · unfold handleDrop
    simp [hnp, hcc]

/-- C4: an ok `/api/process` response transitions the targeted session to
`completed` with the response body stored as its `result`, and triggers
exactly one balance refresh (`GET /api/credits/balance`) for the signed-in
user. -/
theorem process_success_completed_one_refresh
    (s : DashboardState) (fileId : Nat) (data : ProcessingResult) (u : String) :
    (processFileSettle s (some u) fileId (ProcessOutcome.ok data)).state.files
        = updateFile s.files fileId (fun f =>
            { f with status := FileStatus.completed, progress := some 100,
                     result := some data })
    ∧ (processFileSettle s (some u) fileId (ProcessOutcome.ok data)).calls
        = [NetworkCall.balanceRefresh u]
    ∧ ((processFileSettle s (some u) fileId (ProcessOutcome.ok data)).calls.filter
        NetworkCall.isBalanceRefresh).length = 1 :=
  ⟨rfl, rfl, rfl⟩

/-- C5 counterexample: a failed retry does not update the session's stored
`error` field to the failure's message — in the concrete partial state the
session list is left completely unchanged and the stored `error` of every
session is still `none`, not the failure message.  (`handleRetrySummarization`
only raises an `alert` in its catch branch; it never calls `setFiles`.) -/
theorem retry_failure_error_not_stored :
    (handleRetrySummarization partialState none
        (RetryOutcome.fail "network down")).state.files = partialState.files
    ∧ partialState.files.all (fun f => f.error == none) = true
    ∧ ((handleRetrySummarization partialState none
        (RetryOutcome.fail "network down")).state.files.all
          (fun f => !(f.error == some "network down"))) = true := by
  decide

/-- C5 amended: on a failed retry the session list is untouched — the session
stays in the error(partial) state with its partial transcript and `cache_key`
intact and its stored `error` field unchanged — the failure message is only
surfaced as a transient alert; and the retry guard still passes afterwards
with the same cache key, so retries can be repeated without limit (no retry
counter exists). -/
theorem retry_failure_partial_persists
    (s : DashboardState) (uid : Option String) (msg : String)
    (f : FileItem) (p : PartialResult)
    (hsel : selectedFile s = some f) (hp : f.partialResult = some p)
    (hkey : p.cache_key ≠ "") :
    (handleRetrySummarization s uid (RetryOutcome.fail msg)).state.files = s.files
    ∧ (handleRetrySummarization s uid (RetryOutcome.fail msg)).alerts = [msg]
    ∧ (handleRetrySummarization s uid (RetryOutcome.fail msg)).calls
        = [NetworkCall.retryRequest p.cache_key]
    ∧ retryGuard (handleRetrySummarization s uid (RetryOutcome.fail msg)).state
        = some p.cache_key := by
  have hg := retryGuard_eq_of hsel hp hkey
  unfold handleRetrySummarization
  rw [hg]
  exact ⟨rfl, rfl, rfl, hg⟩

/-- C7: in every reachable dashboard state, every session has at most one of
the fields `result`, `partialResult`, `error` defined — all modelled
transitions preserve this mutual exclusivity although the record type does
not enforce it. -/
theorem outcome_fields_mutually_exclusive
    (uid : Option String) (s : DashboardState) (h : Reachable uid s) :
    ∀ f ∈ s.files, definedCount f ≤ 1 :=
  fun f hf => ((reachable_inv h).2 f hf).1

/-- C8 counterexample: a completed result whose key-points list is empty
renders an empty Key Points container with no explanatory message, both on
the dashboard and in `ResultDisplay` — there is no "none detected" fallback
for key points (only the action-items sections have one). -/
theorem empty_key_points_render_empty :
    dashboardKeyPointsSection
        { ringkasan_singkat := "r", poin_penting := [], action_items := ["a"] } = []
    ∧ resultDisplayPoinPentingSection
        { ringkasan_singkat := "r", poin_penting := [], action_items := ["a"] } = [] :=
  ⟨rfl, rfl⟩

/-- C8 amended: an empty action-items list renders an explicit "none
detected" message in both result views, but an empty key-points list renders
an empty container with no message. -/
theorem empty_sections_rendering (s : Summary) (h : s.action_items = []) :
    dashboardActionItemsSection s
        = [RenderedNode.message "Tidak ada action items terdeteksi."]
    ∧ resultDisplayActionItemsSection s
        = [RenderedNode.message "Tidak ada action items yang terdeteksi"]
    ∧ (s.poin_penting = [] →
        dashboardKeyPointsSection s = [] ∧ resultDisplayPoinPentingSection s = []) := by
  refine ⟨?_, ?_, ?_⟩
  · unfold dashboardActionItemsSection
    rw [h]
    rfl
  · unfold resultDisplayActionItemsSection
    rw [h]
    rfl
  · intro hk
    unfold dashboardKeyPointsSection resultDisplayPoinPentingSection
    rw [hk]
    exact ⟨rfl, rfl⟩

theorem empty_sections_rendering_witness :
    emptySummary.action_items = []
    ∧ (dashboardActionItemsSection emptySummary
        = [RenderedNode.message "Tidak ada action items terdeteksi."]
      ∧ resultDisplayActionItemsSection emptySummary
        = [RenderedNode.message "Tidak ada action items yang terdeteksi"]
      ∧ (emptySummary.poin_penting = [] →
          dashboardKeyPointsSection emptySummary = []
            ∧ resultDisplayPoinPentingSection emptySummary = [])) :=
  ⟨rfl, empty_sections_rendering emptySummary rfl⟩

/-- C9 counterexample: a 401 (non-ok) response to the approve call leaves the
persisted admin key in place and the console authenticated (no return to the
login screen), and a 401 on the history-list fetch is ignored outright — only
the pending-list fetch's 401 is handled. -/
theorem admin_401_key_not_cleared :
    (handleAction adminAuthedState "p1" AdminVerdict.approve false
        "2026-10-11T00:00:00Z").authenticated = true
    ∧ (handleAction adminAuthedState "p1" AdminVerdict.approve false
        "2026-10-11T00:00:00Z").storedKey = some "secret"
    ∧ showsLogin (handleAction adminAuthedState "p1" AdminVerdict.approve false
        "2026-10-11T00:00:00Z") = false
    ∧ (fetchData adminAuthedState 200 [] 401 []).authenticated = true
    ∧ (fetchData adminAuthedState 200 [] 401 []).storedKey = some "secret" := by
  decide

/-- C9 amended: only a 401 on the pending-list fetch clears the persisted
admin key and returns the console to the unauthenticated login state; a 401
on the history-list fetch is ignored (its status is never inspected), and a
failed approve/reject call (including a 401) leaves the key persisted and the
console authenticated, only setting the error message "Aksi gagal". -/
theorem admin_401_handling
    (s : AdminState) (pb hb : List Purchase) (hs : Nat)
    (pid : String) (act : AdminVerdict) (now : String) :
    ((fetchData s 401 pb hs hb).authenticated = false
      ∧ (fetchData s 401 pb hs hb).storedKey = none
      ∧ showsLogin (fetchData s 401 pb hs hb) = true
      ∧ (fetchData s 401 pb hs hb).error = some "Admin key tidak valid")
    ∧ ((fetchData s 200 pb 401 hb).authenticated = s.authenticated
      ∧ (fetchData s 200 pb 401 hb).storedKey = s.storedKey)
    ∧ ((handleAction s pid act false now).authenticated = s.authenticated
      ∧ (handleAction s pid act false now).storedKey = s.storedKey
      ∧ (handleAction s pid act false now).error = some "Aksi gagal") :=
  ⟨⟨rfl, rfl, rfl, rfl⟩, ⟨rfl, rfl⟩, ⟨rfl, rfl, rfl⟩⟩

/-- C10: choosing a proof file with a disallowed MIME type or a size above
5MB sets an error message but leaves the previously selected valid proof file
(and the rest of the form state) unchanged, so the submit button stays
enabled and submitting still posts the earlier file. -/
theorem invalid_proof_keeps_previous_file
    (s : BuyCreditsState) (g bad : DomFile) (uid : String)
    (hg : s.proofFile = some g)
    (hbad : allowedProofTypes.contains bad.type = false
      ∨ bad.size > 5 * 1024 * 1024) :
    (handleFileChange s (some bad)).proofFile = some g
    ∧ (handleFileChange s (some bad)).error.isSome = true
    ∧ (s.submitting = false → submitEnabled (handleFileChange s (some bad)) = true)
    ∧ (∀ pkg : PackageData, s.selectedPackage = some pkg →
        handleSubmit (handleFileChange s (some bad)) (some uid)
          = some (uid, pkg.id, g)) := by
  have key : (handleFileChange s (some bad)).proofFile = s.proofFile
      ∧ (handleFileChange s (some bad)).error.isSome = true
      ∧ (handleFileChange s (some bad)).submitting = s.submitting
      ∧ (handleFileChange s (some bad)).selectedPackage = s.selectedPackage := by
    rcases hbad with hbad | hbad
    · have hbad2 : bad.type ∉ allowedProofTypes := by simpa using hbad
      simp [handleFileChange, hbad2]
    · by_cases hct : bad.type ∈ allowedProofTypes
      · have hsz : 5242880 < bad.size := by norm_num at hbad; exact hbad
        simp [handleFileChange, hct, hsz]
      · simp [handleFileChange, hct]
  refine ⟨key.1.trans hg, key.2.1, ?_, ?_⟩
  · intro hsub
    unfold submitEnabled
    rw [key.1, hg, key.2.2.1, hsub]
    rfl
  · intro pkg hpkg
    unfold handleSubmit
    rw [key.2.2.2, hpkg, key.1, hg]

theorem partial_response_roundtrip_witness :
    (sampleFailBody.status = "partial"
      ∧ selectedFile partialState = some partialSession
      ∧ partialSession.partialResult = some samplePartial
      ∧ samplePartial.cache_key ≠ "")
    ∧ (((processFileSettle readyState none 0
            (ProcessOutcome.fail sampleFailBody)).state.files
          = updateFile readyState.files 0 (fun f =>
              { f with status := FileStatus.error, progress := some 100,
                       partialResult := some sampleFailBody.toPartialResult })
        ∧ sampleFailBody.toPartialResult.transcript = sampleFailBody.transcript
        ∧ sampleFailBody.toPartialResult.cache_key = sampleFailBody.cache_key)
      ∧ (∀ o : RetryOutcome,
          (handleRetrySummarization partialState none o).calls.head?
            = some (NetworkCall.retryRequest samplePartial.cache_key))
      ∧ (∀ x ∈ (handleRetrySummarization partialState none
            (RetryOutcome.ok sampleResult)).state.files,
          partialState.selectedFileId = some x.id →
          x.result = some sampleResult ∧ x.status = FileStatus.completed
            ∧ x.result.map ProcessingResult.transcript
                = some sampleResult.transcript
            ∧ x.result.map ProcessingResult.summary
                = some sampleResult.summary)) :=
  ⟨⟨rfl, by decide, rfl, by decide⟩,
   partial_response_roundtrip readyState partialState none 0 sampleFailBody
     sampleResult partialSession samplePartial rfl (by decide) rfl (by decide)⟩

theorem unsupported_format_rejected_witness :
    (isProcessing readyState = false
      ∧ checkCredits readyState.userCredits = true
      ∧ ALLOWED_EXTENSIONS.contains
          ("." ++ jsToLower ((jsSplitDot badExtFile.name).getLastD "")) = false)
    ∧ (handleFileInput readyState none (some badExtFile) true
          = { state := readyState, calls := [],
              alerts := ["Format file tidak didukung"], mediaProbed := false }
      ∧ handleDrop readyState none (some badExtFile) true
          = { state := readyState, calls := [],
              alerts := ["Format file tidak didukung"], mediaProbed := false }
      ∧ (∀ s' : DashboardState,
          (handleFileInput s' none (some badExtFile) true).state.files = s'.files
            ∧ (handleFileInput s' none (some badExtFile) true).calls = []
            ∧ (handleDrop s' none (some badExtFile) true).state.files = s'.files
            ∧ (handleDrop s' none (some badExtFile) true).calls = [])) :=
  ⟨⟨rfl, by norm_num [checkCredits, readyState, sampleCredits], by decide⟩,
   unsupported_format_rejected readyState none badExtFile true rfl
     (by norm_num [checkCredits, readyState, sampleCredits]) (by decide)⟩

theorem insufficient_credits_rejected_witness :
    (isProcessing brokeState = false
      ∧ brokeState.userCredits = some brokeCredits
      ∧ brokeCredits.free + brokeCredits.paid < 1)
    ∧ (handleFileInput brokeState none (some witnessFile) true
          = { state := brokeState, calls := [],
              alerts := ["Credit tidak cukup. Silakan top up credit Anda."],
              mediaProbed := false }
      ∧ handleDrop brokeState none (some witnessFile) true
          = { state := brokeState, calls := [],
              alerts := ["Credit tidak cukup. Silakan top up credit Anda."],
              mediaProbed := false }) :=
  ⟨⟨rfl, rfl, by norm_num [brokeCredits]⟩,
   insufficient_credits_rejected brokeState none witnessFile true brokeCredits rfl
     rfl (by norm_num [brokeCredits])⟩

theorem retry_failure_partial_persists_witness :
    (selectedFile partialState = some partialSession
      ∧ partialSession.partialResult = some samplePartial
      ∧ samplePartial.cache_key ≠ "")
    ∧ ((handleRetrySummarization partialState none
          (RetryOutcome.fail "Gagal retry")).state.files = partialState.files
      ∧ (handleRetrySummarization partialState none
          (RetryOutcome.fail "Gagal retry")).alerts = ["Gagal retry"]
      ∧ (handleRetrySummarization partialState none
          (RetryOutcome.fail "Gagal retry")).calls
            = [NetworkCall.retryRequest samplePartial.cache_key]
      ∧ retryGuard (handleRetrySummarization partialState none
          (RetryOutcome.fail "Gagal retry")).state = some samplePartial.cache_key) :=
  ⟨⟨by decide, rfl, by decide⟩,
   retry_failure_partial_persists partialState none "Gagal retry" partialSession
     samplePartial (by decide) rfl (by decide)⟩

theorem outcome_fields_mutually_exclusive_witness :
    Reachable none uploadedState
    ∧ ∀ f ∈ uploadedState.files, definedCount f ≤ 1 :=
  ⟨Reachable.fileInput (some witnessFile) true
      (Reachable.setCredits sampleCredits Reachable.init),
   outcome_fields_mutually_exclusive none uploadedState
     (Reachable.fileInput (some witnessFile) true
       (Reachable.setCredits sampleCredits Reachable.init))⟩

theorem invalid_proof_keeps_previous_file_witness :
    (proofSelectedState.proofFile = some sampleProof
      ∧ (allowedProofTypes.contains badProof.type = false
        ∨ badProof.size > 5 * 1024 * 1024))
    ∧ ((handleFileChange proofSelectedState (some badProof)).proofFile
          = some sampleProof
      ∧ (handleFileChange proofSelectedState (some badProof)).error.isSome = true
      ∧ (proofSelectedState.submitting = false →
          submitEnabled (handleFileChange proofSelectedState (some badProof)) = true)
      ∧ (∀ pkg : PackageData, proofSelectedState.selectedPackage = some pkg →
          handleSubmit (handleFileChange proofSelectedState (some badProof))
              (some "user-1")
            = some ("user-1", pkg.id, sampleProof))) :=
  ⟨⟨rfl, Or.inl (by decide)⟩,
   invalid_proof_keeps_previous_file proofSelectedState sampleProof badProof
     "user-1" rfl (Or.inl (by decide))⟩

lemma checkCredits_sample : checkCredits (some sampleCredits) = true := by
  norm_num [checkCredits, sampleCredits]

lemma probe_ok_witnessFile :
    (validateDuration (some sampleCredits) witnessFile true).result = none := by
  have haud : jsStartsWith witnessFile.type "audio/" = true := by decide
  norm_num [validateDuration, haud, getMaxDuration, sampleCredits, witnessFile]
  split <;> rfl

lemma probe_ok_witnessFile2 :
    (validateDuration (some sampleCredits) witnessFile2 true).result = none := by
  have haud : jsStartsWith witnessFile2.type "audio/" = true := by decide
  norm_num [validateDuration, haud, getMaxDuration, sampleCredits, witnessFile2]
  split <;> rfl

lemma overlap_step1 :
    (uploadStart ⟨creditedState, []⟩ none (some witnessFile)).state
      = ⟨creditedState, [pendingFirst]⟩ := by
  have hproc : isProcessing creditedState = false := rfl
  have hcred : creditedState.userCredits = some sampleCredits := rfl
  have hv : validateFile witnessFile = none := by decide
  have hmedia : (jsStartsWith witnessFile.type "audio/"
      || jsStartsWith witnessFile.type "video/") = true := by decide
  simp [uploadStart, hproc, hcred, checkCredits_sample, hv, hmedia, pendingFirst]

lemma overlap_step2 :
    (uploadStart ⟨creditedState, [pendingFirst]⟩ none (some witnessFile2)).state
      = ⟨creditedState, [pendingFirst, pendingSecond]⟩ := by
  have hproc : isProcessing creditedState = false := rfl
  have hcred : creditedState.userCredits = some sampleCredits := rfl
  have hv : validateFile witnessFile2 = none := by decide
  have hmedia : (jsStartsWith witnessFile2.type "audio/"
      || jsStartsWith witnessFile2.type "video/") = true := by decide
  simp [uploadStart, hproc, hcred, checkCredits_sample, hv, hmedia, pendingSecond]

lemma overlap_step3 :
    (probeResolve ⟨creditedState, [pendingFirst, pendingSecond]⟩ none 0 true).state
      = ⟨coreA, [pendingSecond]⟩ := by
  simp [probeResolve, pendingFirst, probe_ok_witnessFile, processFileStart,
        freshSession, updateFile, creditedState, initState, coreA, sessionA]

lemma overlap_step4 :
    (probeResolve ⟨coreA, [pendingSecond]⟩ none 0 true).state
      = ⟨coreB, []⟩ := by
  simp [probeResolve, pendingSecond, probe_ok_witnessFile2, processFileStart,
        freshSession, updateFile, coreA, coreB, sessionA, sessionB]

/-- C6: the code violates the claim.  In the interleaving-faithful model a
state with two simultaneously `processing` sessions is reachable: two valid
audio uploads are each accepted while the other's duration probe is pending
(the `isProcessing` guard runs before the `await validateDuration(file)`,
and the continuation creates the session without re-checking), and after
both probes resolve the session list holds two `processing` sessions. -/
theorem two_processing_sessions_reachable :
    ReachableAsync none overlapTrace
    ∧ processingCount overlapTrace.core.files = 2 := by
  constructor
  · exact ReachableAsync.probe 0 true
      (ReachableAsync.probe 0 true
        (ReachableAsync.upload (some witnessFile2)
          (ReachableAsync.upload (some witnessFile)
            (ReachableAsync.setCredits sampleCredits ReachableAsync.init))))
  · have h : overlapTrace = ⟨coreB, []⟩ := by
      unfold overlapTrace
      rw [overlap_step1, overlap_step2, overlap_step3, overlap_step4]
    rw [h]
    decide
